import Mathlib

/-!
Shallow embedding of the prediction freshness/caching protocol and the
LLM response validation and fallback logic of the binance-ai backend
(FastAPI + SQLAlchemy + OpenAI service).  Python floats are modelled as
rationals, datetimes as rationals (seconds), database rows as Lean
structures, JSON payloads as an inductive value type, and raised Python
exceptions as an error type threaded through Except.
-/

namespace BinanceAI

/-- The Python exceptions that the embedded code paths can raise. -/
inductive PyErr where
  | valueError (msg : String)
  | keyError (key : String)
  | attributeError (attr : String)
  | typeError (msg : String)
  | jsonDecodeError
  | validationError (field : String)
  deriving DecidableEq, Repr

/-- JSON values as produced by json.loads: objects are ordered key/value
lists (Python dicts have unique keys; lookups take the first match). -/
inductive Json where
  | null
  | bool (b : Bool)
  | num (q : ℚ)
  | str (s : String)
  | arr (elems : List Json)
  | obj (fields : List (String × Json))

/-- Dictionary lookup, dict.get(key): first binding with the key. -/
def jGet (fields : List (String × Json)) (key : String) : Option Json :=
  match fields with
  | [] => none
  | (k, v) :: rest => if k == key then some v else jGet rest key

/-- dict.get(key, default). -/
def jGetD (fields : List (String × Json)) (key : String) (dflt : Json) : Json :=
  (jGet fields key).getD dflt

/-- Python str(...) content is irrelevant to the claims; strings are kept
verbatim.  str.upper() on ASCII text (Unicode casing not modelled; all
symbols in the service are ASCII trading pairs). -/
def pyUpper (s : String) : String := String.mk (s.toList.map Char.toUpper)

/-- str.lower() on ASCII text (Unicode casing not modelled). -/
def pyLower (s : String) : String := String.mk (s.toList.map Char.toLower)

/-- Python float(x) coercion on a JSON value.  Numbers and booleans
coerce; a plain decimal string with optional sign coerces; everything
else raises (TypeError / ValueError), modelled as none.  Scientific
notation, inf/nan and underscores in numeric strings are not modelled:
no claim exercises them. -/
def pyFloatChars : List Char → Option ℚ
  | [] => none
  | cs =>
    let (sign, body) :=
      match cs with
      | '-' :: rest => ((-1 : ℚ), rest)
      | '+' :: rest => ((1 : ℚ), rest)
      | rest => ((1 : ℚ), rest)
    let intPart := body.takeWhile Char.isDigit
    let rest := body.dropWhile Char.isDigit
    let digitsVal (l : List Char) : ℚ :=
      l.foldl (fun acc c => acc * 10 + (c.toNat - '0'.toNat : ℕ)) 0
    match rest with
    | [] =>
      if intPart.isEmpty then none
      else some (sign * digitsVal intPart)
    | '.' :: fracs =>
      if fracs.all Char.isDigit ∧ ¬(intPart.isEmpty ∧ fracs.isEmpty) then
        some (sign * (digitsVal intPart + digitsVal fracs / (10 : ℚ) ^ fracs.length))
      else none
    | _ => none

/-- float(v) for a JSON value v. -/
def pyFloat : Json → Option ℚ
  | Json.num q => some q
  | Json.bool b => some (if b then 1 else 0)
  | Json.str s => pyFloatChars s.toList
  | _ => none

/-- Python int(q) truncates toward zero. -/
def pyInt (q : ℚ) : ℤ := if 0 ≤ q then ⌊q⌋ else ⌈q⌉

/-- A JSON value accepted by a pydantic str field (v2 lax mode does not
coerce numbers to strings). -/
def asStr : Json → Option String
  | Json.str s => some s
  | _ => none

/-! ## Sentiment service (app/services/sentiment_service.py) -/

/-- app/schemas/sentiment.py, SentimentAnalysisRequest: only a text
field.  The schema deliberately has no model version field (the schema
doc string notes model version is controlled server side). -/
structure SentimentAnalysisRequest where
  text : String

/-- app/schemas/sentiment.py, SentimentAnalysisResult. -/
structure SentimentAnalysisResult where
  sentiment_label : String
  sentiment_score : ℚ
  confidence : ℚ
  model_version : String

/-- The bullish keyword list of SentimentService.analyze_with_keywords. -/
def bullish_keywords : List String :=
  ["bull", "bullish", "growth", "surge", "rally", "profit", "gain",
   "positive", "up", "rise", "pump", "moon", "breakout", "support",
   "buy", "accumulate", "hodl", "adoption", "partnership"]

/-- The bearish keyword list. -/
def bearish_keywords : List String :=
  ["bear", "bearish", "decline", "crash", "drop", "loss", "negative",
   "down", "fall", "dump", "dip", "breakdown", "resistance",
   "sell", "fear", "panic", "regulation", "hack", "scam"]

/-- The neutral keyword list. -/
def neutral_keywords : List String :=
  ["stable", "sideways", "consolidation", "range", "waiting",
   "uncertain", "mixed", "flat"]

/-- needle leads haystack (list version of startswith). -/
def leadsWith : List Char → List Char → Bool
  | [], _ => true
  | _ :: _, [] => false
  | a :: as, b :: bs => a == b && leadsWith as bs

/-- the Python membership test, needle in haystack (substring). -/
def hasSub (needle : List Char) : List Char → Bool
  | [] => needle.isEmpty
  | c :: rest => leadsWith needle (c :: rest) || hasSub needle rest

/-- sum(1 for keyword in kws if keyword in text). -/
def keywordCount (kws : List String) (text : List Char) : ℕ :=
  (kws.filter (fun k => hasSub k.toList text)).length

/-- len(text.split()): number of maximal whitespace-free runs. -/
def wordCountAux : Bool → List Char → ℕ
  | _, [] => 0
  | inWord, c :: rest =>
    if c.isWhitespace then wordCountAux false rest
    else (if inWord then 0 else 1) + wordCountAux true rest

/-- len(text.split()). -/
def wordCount (text : List Char) : ℕ := wordCountAux false text

/-- The label and score branch cascade of analyze_with_keywords
(lines 194 to 209): strict dominance picks bullish or bearish with the
0.08 per keyword adjustment clamped to [0.05, 0.95]; every other branch
yields neutral with score 0.5. -/
def keywordLabelScore (b r n : ℕ) : String × ℚ :=
  if b > r ∧ b > n then
    ("bullish", min ((1 : ℚ)/2 + (b : ℚ) * (8 : ℚ)/100) ((95 : ℚ)/100))
  else if r > b ∧ r > n then
    ("bearish", max ((1 : ℚ)/2 - (r : ℚ) * (8 : ℚ)/100) ((5 : ℚ)/100))
  else if n > 0 ∧ n ≥ b ∧ n ≥ r then
    ("neutral", (1 : ℚ)/2)
  else if b = r then
    ("neutral", (1 : ℚ)/2)
  else
    ("neutral", (1 : ℚ)/2)

/-- confidence = min(0.5 + keyword_density * 2, 0.85) where the density
is total matched keywords over max(word count, 1). -/
def keywordConfidence (total : ℕ) (words : ℕ) : ℚ :=
  min ((1 : ℚ)/2 + ((total : ℚ) / (max words 1 : ℕ)) * 2) ((85 : ℚ)/100)

/-- SentimentService.analyze_with_keywords.  It computes counts, label,
score and confidence, and then builds the result with
model_version = f-string over request.model_version — but
SentimentAnalysisRequest defines no model_version field, so that
attribute access raises AttributeError on every input. -/
def analyze_with_keywords (req : SentimentAnalysisRequest) :
    Except PyErr SentimentAnalysisResult :=
  let text := (pyLower req.text).toList
  let b := keywordCount bullish_keywords text
  let r := keywordCount bearish_keywords text
  let n := keywordCount neutral_keywords text
  let _ls := keywordLabelScore b r n
  let _conf := keywordConfidence (b + r + n) (wordCount text)
  -- line 230: request.model_version does not exist on the request schema
  Except.error (PyErr.attributeError "model_version")

/-- The content of an LLM chat completion as seen by the response
handling code: empty (None or empty string, so that the falsiness check
fires), text that json.loads rejects, or a parsed JSON value. -/
inductive LLMContent where
  | empty
  | nonJson (raw : String)
  | json (v : Json)

/-- Clamp used at sentiment_service lines 123 and 124:
max(0.0, min(1.0, x)). -/
def clamp01 (q : ℚ) : ℚ := max 0 (min 1 q)

/-- The response handling part of SentimentService.analyze_with_openai,
given the completion content and the model string reported by the API
response.  Every exception inside the try block (empty content
ValueError, JSONDecodeError, AttributeError from .lower() on a
non-string or from .get on a non-dict, TypeError/ValueError from
float()) lands in an except handler that returns
analyze_with_keywords(request); an exception raised by the fallback
itself propagates, which the Except equation captures.  The metadata
json.dumps block is log-only local state and is not modelled. -/
def sentimentAnalyzeOpenai (req : SentimentAnalysisRequest)
    (respModel : String) (content : LLMContent) :
    Except PyErr SentimentAnalysisResult :=
  match content with
  | LLMContent.empty => analyze_with_keywords req
  | LLMContent.nonJson _ => analyze_with_keywords req
  | LLMContent.json v =>
    match v with
    | Json.obj fields =>
      match jGetD fields "sentiment_label" (Json.str "neutral") with
      | Json.str label0 =>
        match pyFloat (jGetD fields "sentiment_score" (Json.num ((1 : ℚ)/2))) with
        | some score0 =>
          match pyFloat (jGetD fields "confidence" (Json.num ((8 : ℚ)/10))) with
          | some conf0 =>
            Except.ok
              { sentiment_label := pyLower label0
                sentiment_score := clamp01 score0
                confidence := clamp01 conf0
                model_version := respModel }
          | none => analyze_with_keywords req
        | none => analyze_with_keywords req
      | _ => analyze_with_keywords req
    | _ => analyze_with_keywords req

/-! ## Price prediction service (app/services/price_prediction_service.py) -/

/-- app/schemas/price_prediction.py, PricePredictionResult.  The
sentiment_summary dict is kept as a JSON value; datetimes are rationals
(seconds since the epoch). -/
structure PricePredictionResult where
  symbol : String
  prediction : String
  confidence : ℚ
  sentiment_summary : Json
  reasoning : String
  key_factors : List String
  news_analyzed : ℕ
  analyzed_at : ℚ
  model_version : String

/-- A JSON value accepted by the pydantic list[str] field key_factors:
an array whose elements are all strings. -/
def asStrList : List Json → Option (List String)
  | [] => some []
  | Json.str s :: rest => (asStrList rest).map (s :: ·)
  | _ => none

/-- The response handling part of
PricePredictionService.analyze_with_openai (lines 236 to 274).  Empty
content raises ValueError; JSONDecodeError is re-raised as ValueError;
missing required keys raise KeyError (re-raised by the generic except
handler); pydantic validation of PricePredictionResult rejects a
non-string prediction or reasoning, a confidence outside [0, 1], a
non-dict sentiment_summary or a non-list-of-strings key_factors.
There is no fallback in this service: every failure propagates to the
caller.  A non-dict payload raises TypeError at the first subscript. -/
def pricePredictionAnalyze (symbol : String) (newsCount : ℕ)
    (analyzedAt : ℚ) (modelVersion : String) (content : LLMContent) :
    Except PyErr PricePredictionResult :=
  match content with
  | LLMContent.empty => Except.error (PyErr.valueError "Empty response from OpenAI")
  | LLMContent.nonJson _ =>
    Except.error (PyErr.valueError "Invalid JSON response from OpenAI")
  | LLMContent.json v =>
    match v with
    | Json.obj fields =>
      match jGet fields "prediction" with
      | none => Except.error (PyErr.keyError "prediction")
      | some predJ =>
        match jGet fields "confidence" with
        | none => Except.error (PyErr.keyError "confidence")
        | some confJ =>
          match jGet fields "sentiment_summary" with
          | none => Except.error (PyErr.keyError "sentiment_summary")
          | some summJ =>
            match jGet fields "reasoning" with
            | none => Except.error (PyErr.keyError "reasoning")
            | some reasJ =>
              match jGet fields "key_factors" with
              | none => Except.error (PyErr.keyError "key_factors")
              | some kfJ =>
                match asStr predJ with
                | none => Except.error (PyErr.validationError "prediction")
                | some pred =>
                  match pyFloat confJ with
                  | none => Except.error (PyErr.validationError "confidence")
                  | some conf =>
                    if conf < 0 ∨ 1 < conf then
                      Except.error (PyErr.validationError "confidence")
                    else
                      match summJ with
                      | Json.obj summFields =>
                        match asStr reasJ with
                        | none => Except.error (PyErr.validationError "reasoning")
                        | some reas =>
                          match kfJ with
                          | Json.arr kfElems =>
                            match asStrList kfElems with
                            | none => Except.error (PyErr.validationError "key_factors")
                            | some kfs =>
                              Except.ok
                                { symbol := symbol
                                  prediction := pred
                                  confidence := conf
                                  sentiment_summary := Json.obj summFields
                                  reasoning := reas
                                  key_factors := kfs
                                  news_analyzed := newsCount
                                  analyzed_at := analyzedAt
                                  model_version := modelVersion }
                          | _ => Except.error (PyErr.validationError "key_factors")
                      | _ => Except.error (PyErr.validationError "sentiment_summary")
    | _ => Except.error (PyErr.typeError "payload is not a JSON object")

/-! ## Prediction store (app/services/price_prediction_crud.py and the
price_predictions table of the alembic migration) -/

/-- One row of the price_predictions table.  The Text columns
sentiment_summary and key_factors hold json.dumps of the corresponding
values; serialization round-trips for JSON values, so the columns are
modelled by the structured values themselves.  The id (autoincrement)
and updated_at columns are read by no modelled operation and are
omitted.  created_at is server-assigned (server_default now()). -/
structure PricePredictionRow where
  symbol : String
  prediction : String
  confidence : ℚ
  sentiment_summary : Json
  reasoning : String
  key_factors : List String
  news_analyzed : ℕ
  model_version : String
  created_at : ℚ

/-- The database: the append-only list of rows, in insertion order. -/
abbrev PredictionDb := List PricePredictionRow

/-- Pick the row with the larger created_at (order_by desc limit 1);
on a tie SQL gives no ordering guarantee, the fold keeps the earlier
inserted row. -/
def pickLatest (acc : Option PricePredictionRow) (r : PricePredictionRow) :
    Option PricePredictionRow :=
  match acc with
  | none => some r
  | some a => if a.created_at < r.created_at then some r else some a

/-- Row with maximal created_at in a list. -/
def latestOf (rows : List PricePredictionRow) : Option PricePredictionRow :=
  rows.foldl pickLatest none

/-- PricePredictionCRUD.get_latest_by_symbol: the row with maximal
created_at among rows whose symbol equals symbol.upper(). -/
def get_latest_by_symbol (db : PredictionDb) (symbol : String) :
    Option PricePredictionRow :=
  latestOf (db.filter (fun r => r.symbol == pyUpper symbol))

/-- PricePredictionCRUD.get_latest_after_time: the row with maximal
created_at among rows for the symbol with created_at > after_time. -/
def get_latest_after_time (db : PredictionDb) (symbol : String)
    (afterTime : ℚ) : Option PricePredictionRow :=
  latestOf (db.filter
    (fun r => r.symbol == pyUpper symbol && afterTime < r.created_at))

/-- PricePredictionCRUD.create_from_prediction_result builds the row:
the symbol is uppercased, sentiment_summary and key_factors are
json.dumps-serialized, and created_at is assigned server side at flush
(the createdAt argument). -/
def create_from_prediction_result (result : PricePredictionResult)
    (createdAt : ℚ) : PricePredictionRow :=
  { symbol := pyUpper result.symbol
    prediction := result.prediction
    confidence := result.confidence
    sentiment_summary := result.sentiment_summary
    reasoning := result.reasoning
    key_factors := result.key_factors
    news_analyzed := result.news_analyzed
    model_version := result.model_version
    created_at := createdAt }

/-- PricePredictionCRUD.to_prediction_result: the schema value read
back from a row; analyzed_at is set to the created_at of the row. -/
def to_prediction_result (r : PricePredictionRow) : PricePredictionResult :=
  { symbol := r.symbol
    prediction := r.prediction
    confidence := r.confidence
    sentiment_summary := r.sentiment_summary
    reasoning := r.reasoning
    key_factors := r.key_factors
    news_analyzed := r.news_analyzed
    analyzed_at := r.created_at
    model_version := r.model_version }

/-! ## Long polling controller (app/services/long_polling_service.py) -/

/-- app/schemas/price_prediction.py, LongPollingPredictionRequest.
The timeout field is validated to the range 5 to 120 with default 10. -/
structure LongPollingPredictionRequest where
  symbol : String
  last_prediction_time : Option ℚ
  timeout : ℕ

/-- app/schemas/price_prediction.py, LongPollingPredictionResponse. -/
structure LongPollingPredictionResponse where
  success : Bool
  has_new_data : Bool
  prediction : Option PricePredictionResult
  cache_hit : Bool
  next_poll_after : ℤ

/-- The outcome of one poll_for_prediction call: the response, the
database after the call, and how many times the regeneration pipeline
(generate_new_prediction) was invoked during the call. -/
structure PollOutcome where
  response : LongPollingPredictionResponse
  db : PredictionDb
  regenCount : ℕ

/-- CACHE_REFRESH_INTERVAL_SECONDS. -/
def CACHE_REFRESH_INTERVAL_SECONDS : ℚ := 300

/-- The final branch of poll_for_prediction (lines 187 to 206): the
client does not yet have the latest record, so it is returned with
has_new_data true and cache_hit true; next_poll_after counts down the
refresh interval from the age measured at response time. -/
def pollServeExisting (db : PredictionDb) (latest : PricePredictionRow)
    (now : ℚ) : PollOutcome :=
  let time_since_last := now - latest.created_at
  { response :=
      { success := true
        has_new_data := true
        prediction := some (to_prediction_result latest)
        cache_hit := true
        next_poll_after :=
          max 5 (pyInt (CACHE_REFRESH_INTERVAL_SECONDS - time_since_last)) }
    db := db
    regenCount := 0 }

/-- LongPollingPredictionService.poll_for_prediction.

Time model: now0 is the wall clock at entry; now1 is the wall clock at
the post-wait staleness check (the wait loop re-queries the store every
5 seconds for up to request.timeout seconds, so now1 is at least
now0 + timeout whenever the loop times out); tIns is the server clock
value assigned to created_at if this call inserts a row.  The store is
read and written only by this call (the wait loop therefore finds
exactly what get_latest_after_time finds in the unchanged store).
gen is the outcome of the generate_new_prediction pipeline: some result,
or none when the pipeline raises (upstream fetch failure, unconfigured
or failing LLM); the surrounding try/except turns that into the
degraded response paths. -/
def poll_for_prediction (db : PredictionDb)
    (req : LongPollingPredictionRequest) (now0 now1 tIns : ℚ)
    (gen : Option PricePredictionResult) : PollOutcome :=
  let symbol := pyUpper req.symbol
  match get_latest_by_symbol db symbol with
  | none =>
    -- lines 64 to 94: no prediction exists, generate one
    match gen with
    | some result =>
      let row := create_from_prediction_result result tIns
      { response :=
          { success := true
            has_new_data := true
            prediction := some (to_prediction_result row)
            cache_hit := false
            next_poll_after := 300 }
        db := db ++ [row]
        regenCount := 1 }
    | none =>
      { response :=
          { success := false
            has_new_data := false
            prediction := none
            cache_hit := false
            next_poll_after := 30 }
        db := db
        regenCount := 1 }
  | some latest =>
    match req.last_prediction_time with
    | some lpt =>
      if latest.created_at ≤ lpt then
        -- lines 97 to 185: client already has the latest record
        match get_latest_after_time db symbol lpt with
        | some newPrediction =>
          { response :=
              { success := true
                has_new_data := true
                prediction := some (to_prediction_result newPrediction)
                cache_hit := true
                next_poll_after := 300 }
            db := db
            regenCount := 0 }
        | none =>
          let time_since_last := now1 - latest.created_at
          if CACHE_REFRESH_INTERVAL_SECONDS ≤ time_since_last then
            match gen with
            | some result =>
              let row := create_from_prediction_result result tIns
              { response :=
                  { success := true
                    has_new_data := true
                    prediction := some (to_prediction_result row)
                    cache_hit := false
                    next_poll_after := 300 }
                db := db ++ [row]
                regenCount := 1 }
            | none =>
              { response :=
                  { success := true
                    has_new_data := false
                    prediction := some (to_prediction_result latest)
                    cache_hit := true
                    next_poll_after := 30 }
                db := db
                regenCount := 1 }
          else
            { response :=
                { success := true
                  has_new_data := false
                  prediction := some (to_prediction_result latest)
                  cache_hit := true
                  next_poll_after :=
                    max 5 (pyInt (CACHE_REFRESH_INTERVAL_SECONDS - time_since_last)) }
              db := db
              regenCount := 0 }
      else
        pollServeExisting db latest now0
    | none =>
      pollServeExisting db latest now0

/-! ## Prediction line service (app/services/prediction_line_service.py) -/

/-- app/schemas/price_prediction.py, PredictionLineRequest (periods is
validated to 4..100, news_limit to 1..50). -/
structure PredictionLineRequest where
  symbol : String
  interval : String
  periods : ℕ
  news_limit : ℕ

/-- One point of the prediction line. -/
structure PredictionLinePoint where
  time : ℤ
  value : ℚ

/-- app/schemas/price_prediction.py, PredictionLineResponse. -/
structure PredictionLineResponse where
  success : Bool
  symbol : String
  interval : String
  current_price : ℚ
  current_time : ℤ
  prediction_line : List PredictionLinePoint
  direction : String
  confidence : ℚ
  reasoning : String
  news_analyzed : ℕ
  model_version : String
  generated_at : String

/-- A candle as returned by fetch_recent_klines (only time and close
are used downstream). -/
structure Kline where
  time : ℤ
  openP : ℚ
  high : ℚ
  low : ℚ
  close : ℚ
  volume : ℚ

/-- The INTERVAL_SECONDS mapping. -/
def INTERVAL_SECONDS (interval : String) : Option ℤ :=
  if interval == "1m" then some 60
  else if interval == "5m" then some 300
  else if interval == "15m" then some 900
  else if interval == "30m" then some 1800
  else if interval == "1h" then some 3600
  else if interval == "4h" then some 14400
  else if interval == "1d" then some 86400
  else if interval == "1w" then some 604800
  else none

/-- Python round(x, 2); round-half-even on binary floats is modelled as
rounding to the nearest hundredth (no claim depends on the values). -/
def round2 (q : ℚ) : ℚ := (round (q * 100) : ℤ) / 100

/-- The float(p) coercion applied elementwise by the list comprehension
[float(p) for p in prices]; any non-coercible element raises. -/
def floatAll : List Json → Option (List ℚ)
  | [] => some []
  | j :: rest => match pyFloat j with
    | some q => (floatAll rest).map (q :: ·)
    | none => none

/-- The validated AI payload returned by predict_with_openai:
predicted prices already padded or trimmed to the requested length and
coerced to floats, and the three defaulted fields still as JSON values
(they are validated later, by the pydantic response construction). -/
structure PredLineAI where
  predicted_prices : List ℚ
  direction : Json
  confidence : Json
  reasoning : Json

/-- The response handling part of
PredictionLineService.predict_with_openai (lines 256 to 286).  Empty
content raises ValueError; malformed JSON raises JSONDecodeError (this
function has no try/except, everything propagates).  A missing
predicted_prices key defaults to [] and, like any list shorter than 2,
raises ValueError; a shorter-than-periods list is padded by repeating
its last element, a longer one is trimmed; a non-list value raises at
its first use (TypeError for numbers and dicts; some string corner
cases would raise later, which is collapsed into the same error here
since no claim exercises a string payload). -/
def predictLineParse (periods : ℕ) (content : LLMContent) :
    Except PyErr PredLineAI :=
  match content with
  | LLMContent.empty => Except.error (PyErr.valueError "Empty response from OpenAI")
  | LLMContent.nonJson _ => Except.error PyErr.jsonDecodeError
  | LLMContent.json v =>
    match v with
    | Json.obj fields =>
      match jGetD fields "predicted_prices" (Json.arr []) with
      | Json.arr prices0 =>
        if prices0.length < 2 then
          Except.error (PyErr.valueError "OpenAI returned insufficient predicted prices")
        else
          let prices1 :=
            if prices0.length < periods then
              prices0 ++ List.replicate (periods - prices0.length)
                (prices0.getLastD Json.null)
            else if periods < prices0.length then
              prices0.take periods
            else prices0
          match floatAll prices1 with
          | none => Except.error (PyErr.typeError "float() on a non-numeric price")
          | some prices =>
            Except.ok
              { predicted_prices := prices
                direction := jGetD fields "direction" (Json.str "neutral")
                confidence := jGetD fields "confidence" (Json.num ((1 : ℚ)/2))
                reasoning := jGetD fields "reasoning"
                  (Json.str "AI prediction based on price action and news sentiment.") }
      | _ => Except.error (PyErr.typeError "predicted_prices is not a list")
    | _ => Except.error (PyErr.typeError "payload is not a JSON object")

/-- The enumerate(prices, start=1) loop of generate_prediction_line
(lines 97 to 104): the point at zero-based position i carries
time = current_time + (i + 1) * interval_sec and the price rounded to
two decimals. -/
def buildLine (currentTime : ℤ) (intervalSec : ℤ) (i0 : ℕ) :
    List ℚ → List PredictionLinePoint
  | [] => []
  | p :: rest =>
    { time := currentTime + ((i0 : ℤ) + 1) * intervalSec, value := round2 p }
      :: buildLine currentTime intervalSec (i0 + 1) rest

/-- PredictionLineService.generate_prediction_line, with the data
fetching abstracted: configured is whether the OpenAI client exists
(raises ValueError otherwise), klines is what fetch_recent_klines
returned, newsItems the news count, content the completion content and
genAt the ISO timestamp of the response.  The pydantic construction of
PredictionLineResponse validates direction and reasoning as strings and
confidence as a float in [0, 1]. -/
def generate_prediction_line (req : PredictionLineRequest)
    (configured : Bool) (klines : List Kline) (newsCount : ℕ)
    (modelVersion : String) (content : LLMContent) (genAt : String) :
    Except PyErr PredictionLineResponse :=
  if ¬configured then
    Except.error (PyErr.valueError "OpenAI API key not configured")
  else
    match INTERVAL_SECONDS req.interval with
    | none => Except.error (PyErr.valueError "Unsupported interval")
    | some intervalSec =>
      if klines.isEmpty then
        Except.error (PyErr.valueError "Could not fetch recent price data")
      else
        let lastK := klines.getLastD
          { time := 0, openP := 0, high := 0, low := 0, close := 0, volume := 0 }
        let currentPrice := lastK.close
        let currentTime := lastK.time
        match predictLineParse req.periods content with
        | Except.error e => Except.error e
        | Except.ok ai =>
          match asStr ai.direction with
          | none => Except.error (PyErr.validationError "direction")
          | some direction =>
            match pyFloat ai.confidence with
            | none => Except.error (PyErr.validationError "confidence")
            | some confidence =>
              if confidence < 0 ∨ 1 < confidence then
                Except.error (PyErr.validationError "confidence")
              else
                match asStr ai.reasoning with
                | none => Except.error (PyErr.validationError "reasoning")
                | some reasoning =>
                  Except.ok
                    { success := true
                      symbol := req.symbol
                      interval := req.interval
                      current_price := currentPrice
                      current_time := currentTime
                      prediction_line :=
                        buildLine currentTime intervalSec 0 ai.predicted_prices
                      direction := direction
                      confidence := confidence
                      reasoning := reasoning
                      news_analyzed := newsCount
                      model_version := modelVersion
                      generated_at := genAt }

/-! ## Concrete sample data for witnesses and counterexamples -/

/-- A sample sentiment_summary dict. -/
def sampleSummary : Json :=
  Json.obj [("overall_sentiment", Json.str "neutral"),
            ("sentiment_score", Json.num 0)]

/-- A sample stored prediction row, created at time 0. -/
def sampleRow : PricePredictionRow :=
  { symbol := "BTCUSDT"
    prediction := "neutral"
    confidence := (1 : ℚ)/2
    sentiment_summary := sampleSummary
    reasoning := "mixed signals"
    key_factors := ["etf flows"]
    news_analyzed := 5
    model_version := "gpt-4o-mini"
    created_at := 0 }

/-- A sample freshly generated prediction result. -/
def sampleResult : PricePredictionResult :=
  { symbol := "BTCUSDT"
    prediction := "bullish"
    confidence := (7 : ℚ)/10
    sentiment_summary := sampleSummary
    reasoning := "strong positive coverage"
    key_factors := ["etf inflows"]
    news_analyzed := 5
    analyzed_at := 400
    model_version := "gpt-4o-mini" }

/-! ## Claims about the long polling controller -/

/-- C1 (counterexample): with a stored record 400 seconds old (age
greater than 300) and no client timestamp, poll_for_prediction performs
zero regenerations and leaves the store unchanged, returning the stale
record itself; the claim demands exactly one regeneration and a newer
record for every record older than 300 seconds. -/
theorem poll_stale_no_timestamp_no_regen :
    ((400 : ℚ) - sampleRow.created_at > 300) ∧
    (poll_for_prediction [sampleRow]
      { symbol := "BTCUSDT", last_prediction_time := none, timeout := 10 }
      400 410 411 (some sampleResult)).regenCount = 0 ∧
    (poll_for_prediction [sampleRow]
      { symbol := "BTCUSDT", last_prediction_time := none, timeout := 10 }
      400 410 411 (some sampleResult)).db = [sampleRow] ∧
    (poll_for_prediction [sampleRow]
      { symbol := "BTCUSDT", last_prediction_time := none, timeout := 10 }
      400 410 411 (some sampleResult)).response.prediction =
      some (to_prediction_result sampleRow) := by
  refine ⟨by norm_num [sampleRow], rfl, rfl, rfl⟩

/-- C1 (amended): a stale record triggers regeneration only on the
client-has-latest path: when the client supplies a timestamp at least
the created_at of the latest record, no newer record is stored, and the
age measured at the post-wait check is at least 300 seconds, then (the
pipeline succeeding) poll_for_prediction performs exactly one
regeneration, appends exactly one row, and the record in the response
has a created_at (the server-assigned insert time) strictly newer than
the created_at of the previously latest record. -/
theorem poll_stale_client_latest_regenerates
    (db : PredictionDb) (req : LongPollingPredictionRequest)
    (now0 now1 tIns : ℚ) (latest : PricePredictionRow) (lpt : ℚ)
    (result : PricePredictionResult)
    (hlat : get_latest_by_symbol db (pyUpper req.symbol) = some latest)
    (hlpt : req.last_prediction_time = some lpt)
    (hle : latest.created_at ≤ lpt)
    (hafter : get_latest_after_time db (pyUpper req.symbol) lpt = none)
    (hwait : now0 + (req.timeout : ℚ) ≤ now1)
    (hstale : 300 ≤ now1 - latest.created_at)
    (hclock : latest.created_at < tIns) :
    (poll_for_prediction db req now0 now1 tIns (some result)).regenCount = 1 ∧
    (poll_for_prediction db req now0 now1 tIns (some result)).db =
      db ++ [create_from_prediction_result result tIns] ∧
    (poll_for_prediction db req now0 now1 tIns (some result)).response.prediction
      = some (to_prediction_result (create_from_prediction_result result tIns)) ∧
    (to_prediction_result (create_from_prediction_result result tIns)).analyzed_at
      = tIns ∧
    latest.created_at < tIns := by
  simp only [poll_for_prediction, hlat, hlpt, hafter, CACHE_REFRESH_INTERVAL_SECONDS]
  rw [if_pos hle, if_pos hstale]
  exact ⟨rfl, rfl, rfl, rfl, hclock⟩

/-- C1 (witness for the amended theorem) at the concrete stale store. -/
theorem poll_stale_client_latest_regenerates_witness :
    (poll_for_prediction [sampleRow]
      { symbol := "BTCUSDT", last_prediction_time := some 0, timeout := 10 }
      400 410 411 (some sampleResult)).regenCount = 1 ∧
    (poll_for_prediction [sampleRow]
      { symbol := "BTCUSDT", last_prediction_time := some 0, timeout := 10 }
      400 410 411 (some sampleResult)).db =
      [sampleRow] ++ [create_from_prediction_result sampleResult 411] ∧
    (poll_for_prediction [sampleRow]
      { symbol := "BTCUSDT", last_prediction_time := some 0, timeout := 10 }
      400 410 411 (some sampleResult)).response.prediction =
      some (to_prediction_result (create_from_prediction_result sampleResult 411)) ∧
    (to_prediction_result (create_from_prediction_result sampleResult 411)).analyzed_at
      = 411 ∧
    sampleRow.created_at < 411 := by
  exact poll_stale_client_latest_regenerates [sampleRow]
    { symbol := "BTCUSDT", last_prediction_time := some 0, timeout := 10 }
    400 410 411 sampleRow 0 sampleResult rfl rfl (by norm_num [sampleRow])
    rfl (by norm_num) (by norm_num [sampleRow]) (by norm_num [sampleRow])

/-- C4: for a symbol with no stored record, poll_for_prediction makes
exactly one regeneration attempt, and when the pipeline raises it
returns the degraded well-formed envelope (success false, has_new_data
false, prediction none, next_poll_after 30) instead of propagating the
exception, leaving the store unchanged. -/
theorem poll_no_record_one_attempt
    (db : PredictionDb) (req : LongPollingPredictionRequest)
    (now0 now1 tIns : ℚ) (gen : Option PricePredictionResult)
    (hnone : get_latest_by_symbol db (pyUpper req.symbol) = none) :
    (poll_for_prediction db req now0 now1 tIns gen).regenCount = 1 ∧
    (gen = none →
      poll_for_prediction db req now0 now1 tIns gen =
        ⟨⟨false, false, none, false, 30⟩, db, 1⟩) := by
  simp only [poll_for_prediction, hnone]
  cases gen with
  | none => exact ⟨rfl, fun _ => rfl⟩
  | some r => exact ⟨rfl, fun h => by cases h⟩

/-- C4 (witness): the empty store, failing pipeline. -/
theorem poll_no_record_one_attempt_witness :
    (poll_for_prediction [] ⟨"BTCUSDT", none, 10⟩ 0 10 11 none).regenCount = 1 ∧
    (none = (none : Option PricePredictionResult) →
      poll_for_prediction [] ⟨"BTCUSDT", none, 10⟩ 0 10 11 none =
        ⟨⟨false, false, none, false, 30⟩, [], 1⟩) :=
  poll_no_record_one_attempt [] ⟨"BTCUSDT", none, 10⟩ 0 10 11 none rfl

/-- C5: when a record exists and the request carries no client
timestamp, poll_for_prediction serves it with has_new_data true and
cache_hit true, performs no regeneration, and leaves the store
unchanged (this holds whatever the age; the claim states it for ages up
to 300 seconds). -/
theorem poll_fresh_no_timestamp
    (db : PredictionDb) (req : LongPollingPredictionRequest)
    (now0 now1 tIns : ℚ) (gen : Option PricePredictionResult)
    (latest : PricePredictionRow)
    (hlat : get_latest_by_symbol db (pyUpper req.symbol) = some latest)
    (hnolpt : req.last_prediction_time = none)
    (hfresh : now0 - latest.created_at ≤ 300) :
    poll_for_prediction db req now0 now1 tIns gen =
      ⟨⟨true, true, some (to_prediction_result latest), true,
        max 5 (pyInt (300 - (now0 - latest.created_at)))⟩, db, 0⟩ := by
  simp only [poll_for_prediction, hlat, hnolpt, pollServeExisting,
    CACHE_REFRESH_INTERVAL_SECONDS]

/-- C5 (witness): a 120 second old record, no client timestamp. -/
theorem poll_fresh_no_timestamp_witness :
    poll_for_prediction [sampleRow] ⟨"BTCUSDT", none, 10⟩ 120 130 131 none =
      ⟨⟨true, true, some (to_prediction_result sampleRow), true, 180⟩,
        [sampleRow], 0⟩ := by
  rw [poll_fresh_no_timestamp [sampleRow] ⟨"BTCUSDT", none, 10⟩
    120 130 131 none sampleRow rfl rfl (by norm_num [sampleRow])]
  norm_num [sampleRow, pyInt]

/-- C6: when the client supplies a timestamp equal to the created_at of
the latest record, no newer record is stored, and the record is still
fresh at the post-wait check (age below 300 seconds there), the
response has has_new_data false, cache_hit true, and next_poll_after =
max(5, 300 - age) with age measured when the response is built; no
regeneration happens. -/
theorem poll_client_has_latest_fresh
    (db : PredictionDb) (req : LongPollingPredictionRequest)
    (now0 now1 tIns : ℚ) (gen : Option PricePredictionResult)
    (latest : PricePredictionRow) (lpt : ℚ)
    (hlat : get_latest_by_symbol db (pyUpper req.symbol) = some latest)
    (hlpt : req.last_prediction_time = some lpt)
    (heq : lpt = latest.created_at)
    (hafter : get_latest_after_time db (pyUpper req.symbol) lpt = none)
    (hwait : now0 + (req.timeout : ℚ) ≤ now1)
    (hfresh : now1 - latest.created_at < 300) :
    poll_for_prediction db req now0 now1 tIns gen =
      ⟨⟨true, false, some (to_prediction_result latest), true,
        max 5 (pyInt (300 - (now1 - latest.created_at)))⟩, db, 0⟩ := by
  simp only [poll_for_prediction, hlat, hlpt, hafter, CACHE_REFRESH_INTERVAL_SECONDS]
  rw [if_pos (le_of_eq heq.symm), if_neg (not_le.mpr hfresh)]

/-- C6 (witness): the record is 120 seconds old at entry, the client
timestamp equals its created_at, and after the 10 second wait the
response counts down 300 - 130 = 170 seconds. -/
theorem poll_client_has_latest_fresh_witness :
    poll_for_prediction [sampleRow] ⟨"BTCUSDT", some 0, 10⟩ 120 130 131 none =
      ⟨⟨true, false, some (to_prediction_result sampleRow), true, 170⟩,
        [sampleRow], 0⟩ := by
  rw [poll_client_has_latest_fresh [sampleRow] ⟨"BTCUSDT", some 0, 10⟩
    120 130 131 none sampleRow 0 rfl rfl (by norm_num [sampleRow]) rfl
    (by norm_num) (by norm_num [sampleRow])]
  norm_num [sampleRow, pyInt]

/-! ## Claims about LLM response validation and fallback -/

/-- C2 (counterexample): an empty LLM completion makes the price
prediction analysis return an error (a raised ValueError) instead of a
fallback result: price_prediction_service has no deterministic fallback
at all, so the caller of this analysis does observe the error. -/
theorem price_prediction_malformed_raises :
    pricePredictionAnalyze "BTCUSDT" 5 0 "gpt-4o-mini" LLMContent.empty =
      Except.error (PyErr.valueError "Empty response from OpenAI") := rfl

/-- C2 (amended): for a malformed LLM response the sentiment analysis
returns exactly the outcome of the keyword fallback analyzer (the
except handlers call it and propagate whatever it does), while the
price prediction analysis raises: ValueError for empty content,
ValueError for non-JSON content, and KeyError for a payload missing
the required prediction field.  The raised errors are handled by the
callers of predict_price (for example poll_for_prediction returns its
degraded envelope), not converted into fallback results. -/
theorem malformed_llm_response_handling
    (req : SentimentAnalysisRequest) (respModel : String) (raw : String)
    (symbol : String) (newsCount : ℕ) (analyzedAt : ℚ) (modelVersion : String) :
    sentimentAnalyzeOpenai req respModel LLMContent.empty =
      analyze_with_keywords req ∧
    sentimentAnalyzeOpenai req respModel (LLMContent.nonJson raw) =
      analyze_with_keywords req ∧
    pricePredictionAnalyze symbol newsCount analyzedAt modelVersion
      LLMContent.empty =
      Except.error (PyErr.valueError "Empty response from OpenAI") ∧
    pricePredictionAnalyze symbol newsCount analyzedAt modelVersion
      (LLMContent.nonJson raw) =
      Except.error (PyErr.valueError "Invalid JSON response from OpenAI") ∧
    pricePredictionAnalyze symbol newsCount analyzedAt modelVersion
      (LLMContent.json (Json.obj [])) =
      Except.error (PyErr.keyError "prediction") :=
  ⟨rfl, rfl, rfl, rfl, rfl⟩

/-- A prediction result proposing seven key factors. -/
def sevenFactorResult : PricePredictionResult :=
  { symbol := "BTCUSDT"
    prediction := "bullish"
    confidence := (7 : ℚ)/10
    sentiment_summary := sampleSummary
    reasoning := "broad positive coverage"
    key_factors := ["f1", "f2", "f3", "f4", "f5", "f6", "f7"]
    news_analyzed := 5
    analyzed_at := 0
    model_version := "gpt-4o-mini" }

/-- C3 (counterexample): a prediction result proposing seven key
factors is persisted by create_from_prediction_result with all seven
entries, not five: no truncation happens anywhere on the way to the
row. -/
theorem seven_key_factors_persisted :
    (create_from_prediction_result sevenFactorResult 0).key_factors.length = 7 ∧
    (7 : ℕ) ≠ 5 := ⟨rfl, by decide⟩

/-- C3 (amended): create_from_prediction_result persists key_factors
exactly as proposed (json.dumps of the list, no truncation and no
length check); neither the pydantic schema (a plain list[str] field)
nor the insert enforces the 1-to-5 invariant. -/
theorem key_factors_persisted_verbatim
    (result : PricePredictionResult) (t : ℚ) :
    (create_from_prediction_result result t).key_factors =
      result.key_factors := rfl

/-- A prediction result whose sentiment_summary carries a sub-score far
outside every documented range. -/
def outOfRangeSummaryResult : PricePredictionResult :=
  { symbol := "BTCUSDT"
    prediction := "bullish"
    confidence := 1
    sentiment_summary := Json.obj [("sentiment_score", Json.num ((73 : ℚ)/10))]
    reasoning := "r"
    key_factors := ["f"]
    news_analyzed := 1
    analyzed_at := 0
    model_version := "gpt-4o-mini" }

/-- C7 (counterexample): a sentiment_summary sub-score of 7.3 reaches
the persistence step and is stored unchanged by
create_from_prediction_result; 7.3 lies outside [0, 1] and outside
[-1, 1], so no clamping into documented ranges happens before
persistence. -/
theorem persisted_summary_not_clamped :
    (create_from_prediction_result outOfRangeSummaryResult 0).sentiment_summary =
      Json.obj [("sentiment_score", Json.num ((73 : ℚ)/10))] ∧
    ¬((73 : ℚ)/10 ≤ 1) := ⟨rfl, by norm_num⟩

/-- C7 (amended): the persistence step itself performs no clamping:
create_from_prediction_result stores sentiment_summary and confidence
exactly as given.  Clamping happens only inside the sentiment service:
every result the OpenAI sentiment path returns has sentiment_score and
confidence clamped into [0, 1] (lines 123 and 124).  An out-of-range
confidence on a prediction result is rejected by schema validation
(pricePredictionAnalyze), not clamped. -/
theorem clamping_happens_in_sentiment_not_persistence
    (result : PricePredictionResult) (t : ℚ)
    (req : SentimentAnalysisRequest) (respModel : String) (v : Json)
    (r : SentimentAnalysisResult)
    (h : sentimentAnalyzeOpenai req respModel (LLMContent.json v) = Except.ok r) :
    (create_from_prediction_result result t).sentiment_summary =
      result.sentiment_summary ∧
    (create_from_prediction_result result t).confidence = result.confidence ∧
    0 ≤ r.sentiment_score ∧ r.sentiment_score ≤ 1 ∧
    0 ≤ r.confidence ∧ r.confidence ≤ 1 := by
  refine ⟨rfl, rfl, ?_⟩
  simp only [sentimentAnalyzeOpenai] at h
  repeat split at h
  all_goals try simp only [analyze_with_keywords] at h
  all_goals try exact Except.noConfusion h
  cases h
  exact ⟨le_max_left _ _, max_le zero_le_one (min_le_left _ _),
    le_max_left _ _, max_le zero_le_one (min_le_left _ _)⟩

/-- C7 (witness for the amended theorem): a payload with
sentiment_score 2 comes back clamped to 1 and in range. -/
theorem clamping_witness :
    (create_from_prediction_result sampleResult 0).sentiment_summary =
      sampleResult.sentiment_summary ∧
    (create_from_prediction_result sampleResult 0).confidence =
      sampleResult.confidence ∧
    0 ≤ (SentimentAnalysisResult.mk "bullish" (clamp01 2) (clamp01 ((9 : ℚ)/10))
      "gpt-4o").sentiment_score ∧
    (SentimentAnalysisResult.mk "bullish" (clamp01 2) (clamp01 ((9 : ℚ)/10))
      "gpt-4o").sentiment_score ≤ 1 ∧
    0 ≤ (SentimentAnalysisResult.mk "bullish" (clamp01 2) (clamp01 ((9 : ℚ)/10))
      "gpt-4o").confidence ∧
    (SentimentAnalysisResult.mk "bullish" (clamp01 2) (clamp01 ((9 : ℚ)/10))
      "gpt-4o").confidence ≤ 1 :=
  clamping_happens_in_sentiment_not_persistence sampleResult 0 ⟨"text"⟩
    "gpt-4o"
    (Json.obj [("sentiment_label", Json.str "Bullish"),
               ("sentiment_score", Json.num 2),
               ("confidence", Json.num ((9 : ℚ)/10))])
    (SentimentAnalysisResult.mk "bullish" (clamp01 2) (clamp01 ((9 : ℚ)/10))
      "gpt-4o")
    rfl

/-- C8 (code_bug): the keyword fallback analyzer counts keywords and
computes label, score and confidence exactly as the claim describes,
but the final result construction reads request.model_version, a field
the SentimentAnalysisRequest schema does not define (the schema
docstring notes the model version was moved to server-side settings).
The attribute access raises AttributeError on every input, so the
analyzer never returns the computed result; here evaluated at a text
with equal bullish and bearish counts, where the claim expects the
neutral result with score 0.5. -/
theorem analyze_with_keywords_attribute_error :
    analyze_with_keywords ⟨"one bull and one bear"⟩ =
      Except.error (PyErr.attributeError "model_version") := rfl

/-! ## Claims about the store round trip -/

/-- The fold underlying latestOf either keeps its accumulator or lands
on an element of the list. -/
theorem foldl_pickLatest_mem (l : List PricePredictionRow)
    (acc : Option PricePredictionRow) :
    l.foldl pickLatest acc = acc ∨
      ∃ a ∈ l, l.foldl pickLatest acc = some a := by
  induction l generalizing acc with
  | nil => exact Or.inl rfl
  | cons x xs ih =>
    simp only [List.foldl_cons]
    rcases ih (pickLatest acc x) with h | ⟨a, ha, h⟩
    · rw [h]
      cases acc with
      | none => exact Or.inr ⟨x, List.mem_cons_self x xs, rfl⟩
      | some b =>
        by_cases hlt : b.created_at < x.created_at
        · exact Or.inr ⟨x, List.mem_cons_self x xs, by simp [pickLatest, hlt]⟩
        · exact Or.inl (by simp [pickLatest, hlt])
    · exact Or.inr ⟨a, List.mem_cons_of_mem x ha, h⟩

/-- Appending a strictly fresher row makes it the latest. -/
theorem latestOf_append_fresh (l : List PricePredictionRow)
    (row : PricePredictionRow)
    (h : ∀ r ∈ l, r.created_at < row.created_at) :
    latestOf (l ++ [row]) = some row := by
  unfold latestOf
  rw [List.foldl_append]
  simp only [List.foldl_cons, List.foldl_nil]
  rcases foldl_pickLatest_mem l none with hacc | ⟨a, ha, hacc⟩
  · rw [hacc]; rfl
  · rw [hacc]
    simp [pickLatest, h a ha]

/-- C9 (amended): inserting a prediction result into a store whose
rows are all strictly older than the server-assigned created_at and
immediately fetching the latest record for its symbol returns exactly
the inserted row, and the schema value read back equals the inserted
result in every field except two: the symbol comes back uppercased
(create_from_prediction_result uppercases it on insert) and
analyzed_at is replaced by the server-assigned created_at
(to_prediction_result maps created_at onto analyzed_at). -/
theorem insert_then_get_latest
    (db : PredictionDb) (result : PricePredictionResult) (t : ℚ)
    (hfresh : ∀ r ∈ db, r.created_at < t) :
    get_latest_by_symbol (db ++ [create_from_prediction_result result t])
      result.symbol = some (create_from_prediction_result result t) ∧
    to_prediction_result (create_from_prediction_result result t) =
      { result with symbol := pyUpper result.symbol, analyzed_at := t } := by
  constructor
  · unfold get_latest_by_symbol
    rw [List.filter_append]
    have hrow : ((create_from_prediction_result result t).symbol ==
        pyUpper result.symbol) = true := by
      simp [create_from_prediction_result]
    simp only [List.filter_cons, List.filter_nil, hrow, if_true]
    exact latestOf_append_fresh _ _
      (fun r hr => hfresh r (List.mem_of_mem_filter hr))
  · rfl

/-- A prediction result whose symbol is lowercase and whose analysis
timestamp differs from the insert time. -/
def lowercaseResult : PricePredictionResult :=
  { symbol := "btcusdt"
    prediction := "neutral"
    confidence := (1 : ℚ)/2
    sentiment_summary := sampleSummary
    reasoning := "r"
    key_factors := ["f"]
    news_analyzed := 1
    analyzed_at := 5
    model_version := "gpt-4o-mini" }

/-- C9 (counterexample): insert a result with symbol btcusdt and
analyzed_at 5 into an empty store at server time 10, then fetch the
latest record for its symbol: the value read back differs from the
inserted one beyond timestamp precision: the symbol comes back
uppercased (BTCUSDT versus btcusdt) and the analysis timestamp comes
back as the insert time 10 instead of 5. -/
theorem roundtrip_changes_fields :
    (get_latest_by_symbol [create_from_prediction_result lowercaseResult 10]
      "btcusdt").map to_prediction_result =
      some (to_prediction_result (create_from_prediction_result lowercaseResult 10)) ∧
    (to_prediction_result (create_from_prediction_result lowercaseResult 10)).symbol
      = "BTCUSDT" ∧
    lowercaseResult.symbol = "btcusdt" ∧
    ("BTCUSDT" : String) ≠ "btcusdt" ∧
    (to_prediction_result (create_from_prediction_result lowercaseResult 10)).analyzed_at
      = 10 ∧
    lowercaseResult.analyzed_at = 5 ∧
    (10 : ℚ) ≠ 5 :=
  ⟨rfl, rfl, rfl, by decide, rfl, rfl, by norm_num⟩

/-- C9 (witness for the amended theorem): the empty store and the
lowercase result inserted at time 10. -/
theorem insert_then_get_latest_witness :
    get_latest_by_symbol ([] ++ [create_from_prediction_result lowercaseResult 10])
      lowercaseResult.symbol =
      some (create_from_prediction_result lowercaseResult 10) ∧
    to_prediction_result (create_from_prediction_result lowercaseResult 10) =
      { lowercaseResult with symbol := pyUpper lowercaseResult.symbol,
                             analyzed_at := 10 } :=
  insert_then_get_latest [] lowercaseResult 10 (by intro r hr; cases hr)

/-! ## Claims about the prediction line -/

/-- buildLine keeps the number of points. -/
theorem buildLine_length (t0 sec : ℤ) (i0 : ℕ) (ps : List ℚ) :
    (buildLine t0 sec i0 ps).length = ps.length := by
  induction ps generalizing i0 with
  | nil => rfl
  | cons p rest ih => simp [buildLine, ih]

/-- The point of buildLine at zero-based index i carries the time
t0 + (i0 + i + 1) * sec. -/
theorem buildLine_time (t0 sec : ℤ) (i0 : ℕ) (ps : List ℚ) (i : ℕ)
    (h : i < (buildLine t0 sec i0 ps).length) :
    ((buildLine t0 sec i0 ps).get ⟨i, h⟩).time =
      t0 + ((i0 : ℤ) + (i : ℤ) + 1) * sec := by
  induction ps generalizing i0 i with
  | nil => simp [buildLine] at h
  | cons p rest ih =>
    cases i with
    | zero => simp [buildLine]
    | succ j =>
      have h' : j < (buildLine t0 sec (i0 + 1) rest).length := by
        simpa [buildLine] using h
      calc ((buildLine t0 sec i0 (p :: rest)).get ⟨j + 1, h⟩).time
          = ((buildLine t0 sec (i0 + 1) rest).get ⟨j, h'⟩).time := rfl
        _ = t0 + (((i0 + 1 : ℕ) : ℤ) + (j : ℤ) + 1) * sec := ih (i0 + 1) j h'
        _ = t0 + ((i0 : ℤ) + ((j + 1 : ℕ) : ℤ) + 1) * sec := by push_cast; ring

/-- floatAll preserves length when it succeeds. -/
theorem floatAll_length (l : List Json) (qs : List ℚ)
    (h : floatAll l = some qs) : qs.length = l.length := by
  induction l generalizing qs with
  | nil => cases h; rfl
  | cons j rest ih =>
    simp only [floatAll] at h
    cases hp : pyFloat j with
    | none => rw [hp] at h; cases h
    | some q =>
      rw [hp] at h
      cases hr : floatAll rest with
      | none => rw [hr] at h; cases h
      | some qs0 =>
        rw [hr] at h
        cases h
        simp [ih qs0 hr]

/-- The pad-or-trim step of predict_with_openai yields exactly periods
elements. -/
theorem padTrim_length (periods : ℕ) (xs : List Json) :
    (if xs.length < periods then
        xs ++ List.replicate (periods - xs.length) (xs.getLastD Json.null)
      else if periods < xs.length then xs.take periods
      else xs).length = periods := by
  split_ifs with h1 h2
  · simp; omega
  · simp; omega
  · omega

/-- C10 (amended): for a request with a supported interval, a
nonempty candle history and a payload whose predicted_prices is a list
of at least 2 float-coercible entries and whose optional direction,
confidence and reasoning fields pass response validation, the returned
prediction_line has exactly request.periods points (padding a short
list by repeating its last price, trimming a longer one), and the point
at zero-based index i has time = current_time + (i + 1) * interval
seconds; a payload with fewer than 2 predicted prices instead fails
with ValueError. -/
theorem generate_prediction_line_spec
    (req : PredictionLineRequest) (klines : List Kline) (newsCount : ℕ)
    (modelVersion : String) (genAt : String)
    (fields : List (String × Json)) (xs : List Json) (sec : ℤ)
    (prices : List ℚ) (d reas : String) (conf : ℚ)
    (hint : INTERVAL_SECONDS req.interval = some sec)
    (hk : klines.isEmpty = false)
    (hpp : jGetD fields "predicted_prices" (Json.arr []) = Json.arr xs)
    (hd : asStr (jGetD fields "direction" (Json.str "neutral")) = some d)
    (hc : pyFloat (jGetD fields "confidence" (Json.num ((1 : ℚ)/2))) = some conf)
    (hcr : ¬(conf < 0 ∨ 1 < conf))
    (hre : asStr (jGetD fields "reasoning"
      (Json.str "AI prediction based on price action and news sentiment.")) =
      some reas) :
    (∀ (h2 : ¬ xs.length < 2)
       (hfl : floatAll
         (if xs.length < req.periods then
             xs ++ List.replicate (req.periods - xs.length) (xs.getLastD Json.null)
           else if req.periods < xs.length then xs.take req.periods
           else xs) = some prices),
       ∃ resp,
         generate_prediction_line req true klines newsCount modelVersion
           (LLMContent.json (Json.obj fields)) genAt = Except.ok resp ∧
         resp.prediction_line.length = req.periods ∧
         ∀ i (hi : i < resp.prediction_line.length),
           (resp.prediction_line.get ⟨i, hi⟩).time =
             (klines.getLastD ⟨0, 0, 0, 0, 0, 0⟩).time + ((i : ℤ) + 1) * sec) ∧
    (xs.length < 2 →
      generate_prediction_line req true klines newsCount modelVersion
        (LLMContent.json (Json.obj fields)) genAt =
        Except.error (PyErr.valueError "OpenAI returned insufficient predicted prices")) := by
  have hbase : ∀ contentOut,
      predictLineParse req.periods (LLMContent.json (Json.obj fields)) = contentOut →
      generate_prediction_line req true klines newsCount modelVersion
        (LLMContent.json (Json.obj fields)) genAt =
      (match contentOut with
       | Except.error e => Except.error e
       | Except.ok ai =>
        match asStr ai.direction with
        | none => Except.error (PyErr.validationError "direction")
        | some direction =>
          match pyFloat ai.confidence with
          | none => Except.error (PyErr.validationError "confidence")
          | some confidence =>
            if confidence < 0 ∨ 1 < confidence then
              Except.error (PyErr.validationError "confidence")
            else
              match asStr ai.reasoning with
              | none => Except.error (PyErr.validationError "reasoning")
              | some reasoning =>
                Except.ok
                  { success := true
                    symbol := req.symbol
                    interval := req.interval
                    current_price := (klines.getLastD ⟨0, 0, 0, 0, 0, 0⟩).close
                    current_time := (klines.getLastD ⟨0, 0, 0, 0, 0, 0⟩).time
                    prediction_line :=
                      buildLine (klines.getLastD ⟨0, 0, 0, 0, 0, 0⟩).time sec 0
                        ai.predicted_prices
                    direction := direction
                    confidence := confidence
                    reasoning := reasoning
                    news_analyzed := newsCount
                    model_version := modelVersion
                    generated_at := genAt }) := by
    intro contentOut hparse
    simp only [generate_prediction_line, hint, hk, hparse]
    simp
  constructor
  · intro h2 hfl
    have hparse : predictLineParse req.periods (LLMContent.json (Json.obj fields)) =
        Except.ok
          { predicted_prices := prices
            direction := jGetD fields "direction" (Json.str "neutral")
            confidence := jGetD fields "confidence" (Json.num ((1 : ℚ)/2))
            reasoning := jGetD fields "reasoning"
              (Json.str "AI prediction based on price action and news sentiment.") } := by
      simp only [predictLineParse, hpp, if_neg h2, hfl]
    have hok : generate_prediction_line req true klines newsCount modelVersion
        (LLMContent.json (Json.obj fields)) genAt = Except.ok
          { success := true
            symbol := req.symbol
            interval := req.interval
            current_price := (klines.getLastD ⟨0, 0, 0, 0, 0, 0⟩).close
            current_time := (klines.getLastD ⟨0, 0, 0, 0, 0, 0⟩).time
            prediction_line :=
              buildLine (klines.getLastD ⟨0, 0, 0, 0, 0, 0⟩).time sec 0 prices
            direction := d
            confidence := conf
            reasoning := reas
            news_analyzed := newsCount
            model_version := modelVersion
            generated_at := genAt } := by
      rw [hbase _ hparse]
      simp only [hd, hc, hre, if_neg hcr]
    refine ⟨_, hok, ?_, ?_⟩
    · simp only [buildLine_length]
      have := floatAll_length _ _ hfl
      rw [this, padTrim_length]
    · intro i hi
      have := buildLine_time (klines.getLastD ⟨0, 0, 0, 0, 0, 0⟩).time sec 0
        prices i (by simpa using hi)
      simpa using this
  · intro hlt
    have hparse : predictLineParse req.periods (LLMContent.json (Json.obj fields)) =
        Except.error (PyErr.valueError "OpenAI returned insufficient predicted prices") := by
      simp only [predictLineParse, hpp, if_pos hlt]
    rw [hbase _ hparse]

/-- C10 (counterexample): a payload with two predicted prices but
confidence 5 makes generate_prediction_line fail with a pydantic
validation error instead of returning a prediction line, although the
payload contains at least 2 predicted prices as the claim requires. -/
theorem prediction_line_invalid_confidence :
    generate_prediction_line ⟨"BTCUSDT", "1h", 4, 10⟩ true
      [⟨1000, 1, 1, 1, 1, 1⟩] 5 "gpt-4o-mini"
      (LLMContent.json (Json.obj
        [("predicted_prices", Json.arr [Json.num 1, Json.num 2]),
         ("confidence", Json.num 5)])) "ts" =
      Except.error (PyErr.validationError "confidence") := rfl

/-- C10 (witness for the amended theorem): periods 4 with two proposed
prices; the line is padded to exactly 4 points. -/
theorem generate_prediction_line_spec_witness :
    ∃ resp,
      generate_prediction_line ⟨"BTCUSDT", "1h", 4, 10⟩ true
        [⟨1000, 1, 1, 1, 1, 1⟩] 5 "gpt-4o-mini"
        (LLMContent.json (Json.obj
          [("predicted_prices", Json.arr [Json.num 1, Json.num 2])])) "ts" =
        Except.ok resp ∧
      resp.prediction_line.length = 4 := by
  obtain ⟨resp, hok, hlen, _⟩ :=
    (generate_prediction_line_spec ⟨"BTCUSDT", "1h", 4, 10⟩
      [⟨1000, 1, 1, 1, 1, 1⟩] 5 "gpt-4o-mini" "ts"
      [("predicted_prices", Json.arr [Json.num 1, Json.num 2])]
      [Json.num 1, Json.num 2] 3600 [1, 2, 2, 2] "neutral"
      "AI prediction based on price action and news sentiment." ((1 : ℚ)/2)
      rfl rfl rfl rfl rfl (by norm_num) rfl).1 (by decide) rfl
  exact ⟨resp, hok, hlen⟩

end BinanceAI
